import Mathlib

/-!
Shallow embedding of the conversation-orchestration backend
(`src/backend/server.py`) of the chatbot application.

The Mongo collections become lists held in a state record `St`; the
wall clock (`datetime.utcnow()`) becomes a natural-number tick counter
that advances on every call; `uuid.uuid4()` becomes a fresh-id counter.
Storage faults of `messages_collection.insert_one` are modelled by an
oracle schedule `storageFaults : List (Option String)`: each insert
attempt consumes the head of the schedule (`none` = the insert
succeeds, `some e` = the insert raises a storage exception with
message `e`); an empty schedule means every insert succeeds.  The
external LLM call (`LlmChat(...).send_message`) is a parameter
`gw : Gateway` returning either the generated text or the exception
text `str(e)`.
-/

namespace ChatApp

/-- Persona record (`chatbots_collection` documents / `Chatbot` model). -/
structure Chatbot where
  id : String
  user_id : String
  name : String
  description : String
  introduction : String
  is_censored : Bool
deriving Repr, DecidableEq

/-- Conversation record (`conversations_collection` documents). -/
structure Conversation where
  id : String
  user_id : String
  chatbot_id : String
deriving Repr, DecidableEq

/-- Message record (`messages_collection` documents). -/
structure Message where
  id : String
  conversation_id : String
  sender_type : String
  content : String
  timestamp : Nat
deriving Repr, DecidableEq

/-- The mutable backend state: the three collections relevant to the
orchestrator, the clock, the fresh-id counter and the storage-fault
oracle for message inserts. -/
structure St where
  chatbots : List Chatbot
  conversations : List Conversation
  messages : List Message
  now : Nat
  nextId : Nat
  storageFaults : List (Option String)
deriving Repr, DecidableEq

/-- Errors surfaced by an endpoint: `http s d` is
`HTTPException(status_code = s, detail = d)`; `storage e` is an
uncaught storage exception from an `insert_one` call. -/
inductive Err where
  | http (status : Nat) (detail : String)
  | storage (msg : String)
deriving Repr, DecidableEq

/-- The value returned by a successful `send_message` call:
`{"user_message": ..., "bot_response": ...}`. -/
structure TurnResult where
  user_message : Message
  bot_response : Message
deriving Repr, DecidableEq

/-- The Generation Gateway: systemPrompt → userText → sessionKey →
generated text, or the exception text `str(e)` on failure. -/
abbrev Gateway := String → String → String → Except String String

/-- `datetime.utcnow()`: returns the current tick and advances the clock. -/
def utcnow (s : St) : Nat × St :=
  (s.now, { s with now := s.now + 1 })

/-- `str(uuid.uuid4())`: returns a fresh identifier. -/
def uuid4 (s : St) : String × St :=
  (toString s.nextId, { s with nextId := s.nextId + 1 })

/-- `messages_collection.insert_one(m)`: appends `m` to the message
log, unless the fault oracle schedules a storage exception for this
attempt. -/
def insert_one (m : Message) (s : St) : Except String Unit × St :=
  match s.storageFaults with
  | [] => (.ok (), { s with messages := s.messages ++ [m] })
  | none :: rest =>
      (.ok (), { s with messages := s.messages ++ [m], storageFaults := rest })
  | some e :: rest => (.error e, { s with storageFaults := rest })

/-- The system prompt built in `send_message` (server.py lines 307-311):
`f"{introduction} You are {name}. {description}"` followed by the
content-policy clause selected by `is_censored`. -/
def system_message (chatbot : Chatbot) : String :=
  let base := chatbot.introduction ++ " You are " ++ chatbot.name ++ ". " ++
    chatbot.description
  if chatbot.is_censored then
    base ++ " Keep your responses appropriate and family-friendly."
  else
    base ++ " You can engage in roleplay and adult content as requested."

/-- Python string slicing `t[:50]`: the first 50 characters of `t`. -/
def pySlice50 (t : String) : String :=
  String.mk (t.data.take 50)

/-- The fallback bot content built in the `except` handler
(server.py line 345): the fixed apology with the truncated exception
text interpolated. -/
def fallback_content (e : String) : String :=
  "I\x27m sorry, I\x27m having trouble responding right now. Please try again later. (" ++
    pySlice50 e ++ "...)"

/-- The `except Exception as e` handler of `send_message`
(server.py lines 338-353): persist a fallback bot message carrying the
truncated exception text and return both messages as a success.  If
persisting the fallback itself raises, that exception propagates. -/
def fallback_turn (user_message : Message) (conversation_id : String)
    (e : String) (s : St) : Except Err TurnResult × St :=
  let (bot_message_id, s) := uuid4 s
  let (t, s) := utcnow s
  let bot_message : Message :=
    ⟨bot_message_id, conversation_id, "chatbot", fallback_content e, t⟩
  match insert_one bot_message s with
  | (.ok _, s) => (.ok ⟨user_message, bot_message⟩, s)
  | (.error e2, s) => (.error (.storage e2), s)

/-- `POST /api/chat/{conversation_id}/message` (server.py lines
281-353), the `handleTurn` operation: resolve the conversation (404),
check ownership (403), resolve the chatbot (404), persist the user
message (a storage failure here propagates), call the Gateway and
persist either the generated reply or the fallback message. -/
def send_message (gw : Gateway) (conversation_id : String)
    (message : String) (current_user_id : String) (s : St) :
    Except Err TurnResult × St :=
  match s.conversations.find? (fun c => c.id == conversation_id) with
  | none => (.error (.http 404 "Conversation not found"), s)
  | some conversation =>
    if conversation.user_id ≠ current_user_id then
      (.error (.http 403 "Not authorized"), s)
    else
      match s.chatbots.find? (fun b => b.id == conversation.chatbot_id) with
      | none => (.error (.http 404 "Chatbot not found"), s)
      | some chatbot =>
        let (user_message_id, s) := uuid4 s
        let (ut, s) := utcnow s
        let user_message : Message :=
          ⟨user_message_id, conversation_id, "user", message, ut⟩
        match insert_one user_message s with
        | (.error e, s) => (.error (.storage e), s)
        | (.ok _, s) =>
          match gw (system_message chatbot) message conversation_id with
          | .error e => fallback_turn user_message conversation_id e s
          | .ok response =>
            let (bot_message_id, s) := uuid4 s
            let (bt, s) := utcnow s
            let bot_message : Message :=
              ⟨bot_message_id, conversation_id, "chatbot", response, bt⟩
            match insert_one bot_message s with
            | (.ok _, s) => (.ok ⟨user_message, bot_message⟩, s)
            | (.error e, s) => fallback_turn user_message conversation_id e s

/-- Stable insertion of a message into a timestamp-sorted list
(ascending; an inserted element goes after earlier elements with the
same timestamp). -/
def insertByTs (m : Message) : List Message → List Message
  | [] => [m]
  | x :: xs =>
      if m.timestamp ≤ x.timestamp then m :: x :: xs else x :: insertByTs m xs

/-- `find(...).sort("timestamp", 1)`: stable sort of the message log by
timestamp ascending (ties keep insertion order). -/
def sortByTs (l : List Message) : List Message :=
  l.foldr insertByTs []

/-- `GET /api/chat/{conversation_id}/messages` (server.py lines
355-368), the `listByConversation` operation. -/
def get_conversation_messages (conversation_id : String)
    (current_user_id : String) (s : St) : Except Err (List Message) :=
  match s.conversations.find? (fun c => c.id == conversation_id) with
  | none => .error (.http 404 "Conversation not found")
  | some conversation =>
    if conversation.user_id ≠ current_user_id then
      .error (.http 403 "Not authorized")
    else
      .ok (sortByTs
        (s.messages.filter (fun m => m.conversation_id == conversation_id)))

/-- `DELETE /api/chatbots/{chatbot_id}` (server.py lines 247-260):
delete the chatbot, delete its conversations, then run
`messages_collection.delete_many({"conversation_id": {"$in": []}})`,
which filters on membership in the empty id list. -/
def delete_chatbot (chatbot_id : String) (current_user_id : String)
    (s : St) : Except Err Unit × St :=
  match s.chatbots.find? (fun b => b.id == chatbot_id) with
  | none => (.error (.http 404 "Chatbot not found"), s)
  | some chatbot =>
    if chatbot.user_id ≠ current_user_id then
      (.error (.http 403 "Not authorized to delete this chatbot"), s)
    else
      (.ok (),
        { s with
          chatbots := s.chatbots.filter (fun b => !(b.id == chatbot_id)),
          conversations :=
            s.conversations.filter (fun c => !(c.chatbot_id == chatbot_id)),
          messages :=
            s.messages.filter
              (fun m => !(([] : List String).contains m.conversation_id)) })

/-- Run a sequence of `send_message` turns on one conversation,
threading the state. -/
def runTurns (gw : Gateway) (conversation_id : String)
    (current_user_id : String) : List String → St → St
  | [], s => s
  | t :: ts, s =>
      runTurns gw conversation_id current_user_id ts
        (send_message gw conversation_id t current_user_id s).2

/-- A transcript that alternates a user message then a bot message,
pair after pair. -/
def alternating : List Message → Bool
  | [] => true
  | [_] => false
  | u :: b :: rest =>
      u.sender_type == "user" && b.sender_type == "chatbot" && alternating rest

/-- The list is sorted by timestamp ascending. -/
def sortedByTs : List Message → Bool
  | [] => true
  | [_] => true
  | a :: b :: rest => decide (a.timestamp ≤ b.timestamp) && sortedByTs (b :: rest)

/-! ### Path-characterization lemmas for `send_message` -/

/-- With a fault-free storage schedule and a Gateway that answers, the
turn appends the user message and the generated bot message. -/
theorem send_message_gw_ok_eq (gw : Gateway) (cid msg uid : String) (s : St)
    (c : Conversation) (cb : Chatbot) (resp : String)
    (hconv : s.conversations.find? (fun x => x.id == cid) = some c)
    (hu : c.user_id = uid)
    (hcb : s.chatbots.find? (fun b => b.id == c.chatbot_id) = some cb)
    (hf : s.storageFaults = [])
    (hgw : gw (system_message cb) msg cid = .ok resp) :
    send_message gw cid msg uid s =
      (.ok ⟨⟨toString s.nextId, cid, "user", msg, s.now⟩,
            ⟨toString (s.nextId + 1), cid, "chatbot", resp, s.now + 1⟩⟩,
       { s with
         messages := s.messages ++
           [⟨toString s.nextId, cid, "user", msg, s.now⟩,
            ⟨toString (s.nextId + 1), cid, "chatbot", resp, s.now + 1⟩],
         now := s.now + 2, nextId := s.nextId + 2 }) := by
  obtain ⟨cbs, convs, msgs, now, nid, faults⟩ := s
  simp only at hconv hcb hf
  subst hf
  simp [send_message, uuid4, utcnow, insert_one, hconv, hcb, hu, hgw]

/-- With a fault-free storage schedule and a failing Gateway, the turn
appends the user message and the fallback bot message, and still
returns both as a success. -/
theorem send_message_gw_err_eq (gw : Gateway) (cid msg uid : String) (s : St)
    (c : Conversation) (cb : Chatbot) (e : String)
    (hconv : s.conversations.find? (fun x => x.id == cid) = some c)
    (hu : c.user_id = uid)
    (hcb : s.chatbots.find? (fun b => b.id == c.chatbot_id) = some cb)
    (hf : s.storageFaults = [])
    (hgw : gw (system_message cb) msg cid = .error e) :
    send_message gw cid msg uid s =
      (.ok ⟨⟨toString s.nextId, cid, "user", msg, s.now⟩,
            ⟨toString (s.nextId + 1), cid, "chatbot", fallback_content e,
              s.now + 1⟩⟩,
       { s with
         messages := s.messages ++
           [⟨toString s.nextId, cid, "user", msg, s.now⟩,
            ⟨toString (s.nextId + 1), cid, "chatbot", fallback_content e,
              s.now + 1⟩],
         now := s.now + 2, nextId := s.nextId + 2 }) := by
  obtain ⟨cbs, convs, msgs, now, nid, faults⟩ := s
  simp only at hconv hcb hf
  subst hf
  simp [send_message, uuid4, utcnow, insert_one, fallback_turn,
    hconv, hcb, hu, hgw]

/-- Whatever the Gateway does, a turn on a ready conversation with a
fault-free storage schedule appends exactly one user message and one
bot message with consecutive timestamps, and succeeds. -/
theorem send_message_pair (gw : Gateway) (cid msg uid : String) (s : St)
    (c : Conversation) (cb : Chatbot)
    (hconv : s.conversations.find? (fun x => x.id == cid) = some c)
    (hu : c.user_id = uid)
    (hcb : s.chatbots.find? (fun b => b.id == c.chatbot_id) = some cb)
    (hf : s.storageFaults = []) :
    ∃ bc : String,
      send_message gw cid msg uid s =
        (.ok ⟨⟨toString s.nextId, cid, "user", msg, s.now⟩,
              ⟨toString (s.nextId + 1), cid, "chatbot", bc, s.now + 1⟩⟩,
         { s with
           messages := s.messages ++
             [⟨toString s.nextId, cid, "user", msg, s.now⟩,
              ⟨toString (s.nextId + 1), cid, "chatbot", bc, s.now + 1⟩],
           now := s.now + 2, nextId := s.nextId + 2 }) := by
  cases hgw : gw (system_message cb) msg cid with
  | ok resp =>
      exact ⟨resp, send_message_gw_ok_eq gw cid msg uid s c cb resp
        hconv hu hcb hf hgw⟩
  | error e =>
      exact ⟨fallback_content e, send_message_gw_err_eq gw cid msg uid s c cb e
        hconv hu hcb hf hgw⟩

/-- The truncated exception excerpt is at most 50 characters long. -/
theorem pySlice50_length_le (e : String) : (pySlice50 e).length ≤ 50 := by
  simp only [pySlice50, String.length]
  simp

/-! ### Concrete fixtures for witnesses and counterexamples -/

/-- A Gateway that always answers with a fixed text. -/
def gwOk : Gateway := fun _ _ _ => .ok "hi there"

/-- A Gateway that always fails, with a long exception text. -/
def gwFail : Gateway := fun _ _ _ =>
  .error "boom: upstream timeout while calling provider xyz, request id 12345"

/-- A ready state: one persona, one conversation owned by `u1`, empty
transcript, fault-free storage. -/
def stReady : St :=
  ⟨[⟨"cb1", "u1", "Nova", "a helpful guide", "Hi, I am Nova.", true⟩],
   [⟨"c1", "u1", "cb1"⟩], [], 0, 0, []⟩

/-- A state whose only conversation references a persona that no
longer exists, owned by `alice`. -/
def stOrphan : St := ⟨[], [⟨"c1", "alice", "ghost"⟩], [], 0, 0, []⟩

/-- A state with no conversations at all. -/
def stEmpty : St := ⟨[], [], [], 0, 0, []⟩

/-- A state whose only conversation references a missing persona,
owned by `u1`. -/
def stOrphanOwned : St := ⟨[], [⟨"c1", "u1", "ghost"⟩], [], 0, 0, []⟩

/-! ### Claims -/

/-- C1: when the Gateway call fails, `send_message` still persists a
bot message and returns both the user and the bot message as a
success (no error status); the bot content is the fixed apology
carrying the first at-most-50 characters of the failure reason. -/
theorem gateway_failure_fallback_turn (gw : Gateway) (cid msg uid : String)
    (s : St) (c : Conversation) (cb : Chatbot) (e : String)
    (hconv : s.conversations.find? (fun x => x.id == cid) = some c)
    (hu : c.user_id = uid)
    (hcb : s.chatbots.find? (fun b => b.id == c.chatbot_id) = some cb)
    (hf : s.storageFaults = [])
    (hgw : gw (system_message cb) msg cid = .error e) :
    send_message gw cid msg uid s =
      (.ok ⟨⟨toString s.nextId, cid, "user", msg, s.now⟩,
            ⟨toString (s.nextId + 1), cid, "chatbot", fallback_content e,
              s.now + 1⟩⟩,
       { s with
         messages := s.messages ++
           [⟨toString s.nextId, cid, "user", msg, s.now⟩,
            ⟨toString (s.nextId + 1), cid, "chatbot", fallback_content e,
              s.now + 1⟩],
         now := s.now + 2, nextId := s.nextId + 2 }) ∧
    fallback_content e =
      "I\x27m sorry, I\x27m having trouble responding right now. Please try again later. (" ++
        pySlice50 e ++ "...)" ∧
    (pySlice50 e).length ≤ 50 := by
  exact ⟨send_message_gw_err_eq gw cid msg uid s c cb e hconv hu hcb hf hgw,
    rfl, pySlice50_length_le e⟩

/-- Witness for C1 at a concrete failing Gateway. -/
theorem gateway_failure_fallback_turn_witness :
    send_message gwFail "c1" "hello" "u1" stReady =
      (.ok ⟨⟨"0", "c1", "user", "hello", 0⟩,
            ⟨"1", "c1", "chatbot",
              fallback_content
                "boom: upstream timeout while calling provider xyz, request id 12345",
              1⟩⟩,
       { stReady with
         messages :=
           [⟨"0", "c1", "user", "hello", 0⟩,
            ⟨"1", "c1", "chatbot",
              fallback_content
                "boom: upstream timeout while calling provider xyz, request id 12345",
              1⟩],
         now := 2, nextId := 2 }) ∧
    fallback_content
        "boom: upstream timeout while calling provider xyz, request id 12345" =
      "I\x27m sorry, I\x27m having trouble responding right now. Please try again later. (" ++
        pySlice50
          "boom: upstream timeout while calling provider xyz, request id 12345" ++
        "...)" ∧
    (pySlice50
        "boom: upstream timeout while calling provider xyz, request id 12345").length ≤
      50 :=
  gateway_failure_fallback_turn gwFail "c1" "hello" "u1" stReady
    ⟨"c1", "u1", "cb1"⟩
    ⟨"cb1", "u1", "Nova", "a helpful guide", "Hi, I am Nova.", true⟩
    "boom: upstream timeout while calling provider xyz, request id 12345"
    (by rfl) rfl (by rfl) rfl (by rfl)

/-- C2: on a healthy turn (existing conversation, authorized caller,
existing persona, fault-free storage, Gateway returns text),
`send_message` returns exactly one user and one bot message, appends
both to the transcript store, and the bot timestamp is at least the
user timestamp. -/
theorem turn_success_persists_pair (gw : Gateway) (cid msg uid : String)
    (s : St) (c : Conversation) (cb : Chatbot) (resp : String)
    (hconv : s.conversations.find? (fun x => x.id == cid) = some c)
    (hu : c.user_id = uid)
    (hcb : s.chatbots.find? (fun b => b.id == c.chatbot_id) = some cb)
    (hf : s.storageFaults = [])
    (hgw : gw (system_message cb) msg cid = .ok resp) :
    send_message gw cid msg uid s =
      (.ok ⟨⟨toString s.nextId, cid, "user", msg, s.now⟩,
            ⟨toString (s.nextId + 1), cid, "chatbot", resp, s.now + 1⟩⟩,
       { s with
         messages := s.messages ++
           [⟨toString s.nextId, cid, "user", msg, s.now⟩,
            ⟨toString (s.nextId + 1), cid, "chatbot", resp, s.now + 1⟩],
         now := s.now + 2, nextId := s.nextId + 2 }) ∧
    (⟨toString s.nextId, cid, "user", msg, s.now⟩ : Message).timestamp ≤
      (⟨toString (s.nextId + 1), cid, "chatbot", resp, s.now + 1⟩ :
        Message).timestamp := by
  exact ⟨send_message_gw_ok_eq gw cid msg uid s c cb resp hconv hu hcb hf hgw,
    Nat.le_succ s.now⟩

/-- Witness for C2 at a concrete healthy turn. -/
theorem turn_success_persists_pair_witness :
    send_message gwOk "c1" "hello" "u1" stReady =
      (.ok ⟨⟨"0", "c1", "user", "hello", 0⟩,
            ⟨"1", "c1", "chatbot", "hi there", 1⟩⟩,
       { stReady with
         messages :=
           [⟨"0", "c1", "user", "hello", 0⟩,
            ⟨"1", "c1", "chatbot", "hi there", 1⟩],
         now := 2, nextId := 2 }) ∧
    (⟨"0", "c1", "user", "hello", 0⟩ : Message).timestamp ≤
      (⟨"1", "c1", "chatbot", "hi there", 1⟩ : Message).timestamp :=
  turn_success_persists_pair gwOk "c1" "hello" "u1" stReady
    ⟨"c1", "u1", "cb1"⟩
    ⟨"cb1", "u1", "Nova", "a helpful guide", "Hi, I am Nova.", true⟩
    "hi there" (by rfl) rfl (by rfl) rfl (by rfl)

/-- C3: when persisting the user message fails, `send_message` fails
with a Storage error, the transcript is unchanged (no user message, no
bot message), and the result does not depend on the Gateway at all (the
right-hand side never mentions `gw`): no generation is attempted. -/
theorem user_write_failure_storage_error (gw : Gateway) (cid msg uid : String)
    (s : St) (c : Conversation) (cb : Chatbot) (e : String)
    (rest : List (Option String))
    (hconv : s.conversations.find? (fun x => x.id == cid) = some c)
    (hu : c.user_id = uid)
    (hcb : s.chatbots.find? (fun b => b.id == c.chatbot_id) = some cb)
    (hf : s.storageFaults = Option.some e :: rest) :
    send_message gw cid msg uid s =
      (.error (.storage e),
       { s with now := s.now + 1, nextId := s.nextId + 1,
                storageFaults := rest }) := by
  obtain ⟨cbs, convs, msgs, now, nid, faults⟩ := s
  simp only at hconv hcb hf
  subst hf
  simp [send_message, uuid4, utcnow, insert_one, hconv, hcb, hu]

/-- Witness for C3: a concrete turn whose user-message write faults. -/
theorem user_write_failure_storage_error_witness :
    send_message gwOk "c1" "hello" "u1"
        { stReady with storageFaults := [Option.some "disk full on shard 3"] } =
      (.error (.storage "disk full on shard 3"),
       { stReady with now := 1, nextId := 1, storageFaults := [] }) :=
  user_write_failure_storage_error gwOk "c1" "hello" "u1"
    { stReady with storageFaults := [Option.some "disk full on shard 3"] }
    ⟨"c1", "u1", "cb1"⟩
    ⟨"cb1", "u1", "Nova", "a helpful guide", "Hi, I am Nova.", true⟩
    "disk full on shard 3" [] (by rfl) rfl (by rfl) rfl

/-- C4: when the conversation exists but the caller is not its owner,
`send_message` fails with the Authorization error and the entire
stored state, transcript included, is returned unchanged. -/
theorem turn_unauthorized_no_writes (gw : Gateway) (cid msg uid : String)
    (s : St) (c : Conversation)
    (hconv : s.conversations.find? (fun x => x.id == cid) = some c)
    (hne : c.user_id ≠ uid) :
    send_message gw cid msg uid s = (.error (.http 403 "Not authorized"), s) := by
  obtain ⟨cbs, convs, msgs, now, nid, faults⟩ := s
  simp only at hconv
  simp [send_message, hconv, hne]

/-- Witness for C4: `bob` calling on `u1`'s conversation. -/
theorem turn_unauthorized_no_writes_witness :
    send_message gwOk "c1" "hello" "bob" stReady =
      (.error (.http 403 "Not authorized"), stReady) :=
  turn_unauthorized_no_writes gwOk "c1" "hello" "bob" stReady
    ⟨"c1", "u1", "cb1"⟩ (by rfl) (by decide)

/-- C5 counterexample: the conversation's persona no longer exists,
yet a caller who is not the owner receives the Authorization error
(403), not a NotFound error — the claim as stated is false for such
calls (the ownership check runs before the persona lookup,
server.py lines 287-292). -/
theorem persona_absent_unauthorized_403 :
    stOrphan.chatbots.find? (fun b => b.id == "ghost") = none ∧
    send_message gwOk "c1" "hi" "bob" stOrphan =
      (.error (.http 403 "Not authorized"), stOrphan) :=
  ⟨rfl, rfl⟩

/-- C5 (amended): an unknown conversation id fails with NotFound and
no state change; and when the conversation exists, the caller is its
owner, and the persona no longer exists, the call fails with NotFound
and no state change. -/
theorem notfound_before_any_write (gw : Gateway) (cid msg uid : String)
    (s : St) :
    (s.conversations.find? (fun x => x.id == cid) = none →
      send_message gw cid msg uid s =
        (.error (.http 404 "Conversation not found"), s)) ∧
    (∀ c : Conversation,
      s.conversations.find? (fun x => x.id == cid) = some c →
      c.user_id = uid →
      s.chatbots.find? (fun b => b.id == c.chatbot_id) = none →
      send_message gw cid msg uid s =
        (.error (.http 404 "Chatbot not found"), s)) := by
  constructor
  · intro h
    obtain ⟨cbs, convs, msgs, now, nid, faults⟩ := s
    simp only at h
    simp [send_message, h]
  · intro c hconv hu hcb
    obtain ⟨cbs, convs, msgs, now, nid, faults⟩ := s
    simp only at hconv hcb
    simp [send_message, hconv, hu, hcb]

/-- Witness for the amended C5: both NotFound paths at concrete
states. -/
theorem notfound_before_any_write_witness :
    send_message gwOk "nope" "hi" "u1" stEmpty =
      (.error (.http 404 "Conversation not found"), stEmpty) ∧
    send_message gwOk "c1" "hi" "u1" stOrphanOwned =
      (.error (.http 404 "Chatbot not found"), stOrphanOwned) :=
  ⟨(notfound_before_any_write gwOk "nope" "hi" "u1" stEmpty).1 (by rfl),
   (notfound_before_any_write gwOk "c1" "hi" "u1" stOrphanOwned).2
     ⟨"c1", "u1", "ghost"⟩ (by rfl) rfl (by rfl)⟩

/-- C10: when the Gateway succeeds but persisting the success bot
message fails with a storage error, the `except` handler converts the
failure into a persisted fallback bot message carrying the truncated
storage-error text, and `send_message` still reports success — unlike
a failure of the user-turn write. -/
theorem bot_write_failure_becomes_fallback (gw : Gateway)
    (cid msg uid : String) (s : St) (c : Conversation) (cb : Chatbot)
    (resp e : String)
    (hconv : s.conversations.find? (fun x => x.id == cid) = some c)
    (hu : c.user_id = uid)
    (hcb : s.chatbots.find? (fun b => b.id == c.chatbot_id) = some cb)
    (hf : s.storageFaults = [Option.none, Option.some e])
    (hgw : gw (system_message cb) msg cid = .ok resp) :
    send_message gw cid msg uid s =
      (.ok ⟨⟨toString s.nextId, cid, "user", msg, s.now⟩,
            ⟨toString (s.nextId + 2), cid, "chatbot", fallback_content e,
              s.now + 2⟩⟩,
       { s with
         messages := s.messages ++
           [⟨toString s.nextId, cid, "user", msg, s.now⟩,
            ⟨toString (s.nextId + 2), cid, "chatbot", fallback_content e,
              s.now + 2⟩],
         now := s.now + 3, nextId := s.nextId + 3,
         storageFaults := [] }) := by
  obtain ⟨cbs, convs, msgs, now, nid, faults⟩ := s
  simp only at hconv hcb hf
  subst hf
  simp [send_message, uuid4, utcnow, insert_one, fallback_turn,
    hconv, hcb, hu, hgw]

/-- Witness for C10: a concrete turn whose bot-message write faults
after a successful generation. -/
theorem bot_write_failure_becomes_fallback_witness :
    send_message gwOk "c1" "hello" "u1"
        { stReady with
          storageFaults := [Option.none, Option.some "disk full on shard 3"] } =
      (.ok ⟨⟨"0", "c1", "user", "hello", 0⟩,
            ⟨"2", "c1", "chatbot",
              fallback_content "disk full on shard 3", 2⟩⟩,
       { stReady with
         messages :=
           [⟨"0", "c1", "user", "hello", 0⟩,
            ⟨"2", "c1", "chatbot",
              fallback_content "disk full on shard 3", 2⟩],
         now := 3, nextId := 3, storageFaults := [] }) :=
  bot_write_failure_becomes_fallback gwOk "c1" "hello" "u1"
    { stReady with
      storageFaults := [Option.none, Option.some "disk full on shard 3"] }
    ⟨"c1", "u1", "cb1"⟩
    ⟨"cb1", "u1", "Nova", "a helpful guide", "Hi, I am Nova.", true⟩
    "hi there" "disk full on shard 3" (by rfl) rfl (by rfl) rfl (by rfl)

/-- C6 counterexample: the prompt is not the claimed concatenation —
the code interpolates a space before `You are` (server.py line 307),
so no choice of trailing policy clause makes the claimed base a prefix
of the actual prompt. -/
theorem system_message_formula_counterexample :
    ¬ ∃ cl : String,
      system_message ⟨"cb", "u", "B", "C", "A", true⟩ =
        "A" ++ "You are " ++ "B" ++ ". " ++ "C" ++ cl := by
  rintro ⟨⟨cld⟩, h⟩
  have hd :
      ("A You are B. C Keep your responses appropriate and family-friendly." :
          String).data =
        ("AYou are B. C" : String).data ++ cld := congrArg String.data h
  have ht := congrArg (List.take 13) hd
  rw [List.take_left' (by decide)] at ht
  exact absurd ht (by decide)

/-- C6 (amended): the system prompt equals
introductionText ++ " You are " ++ name ++ ". " ++ description followed
by exactly one fixed policy clause chosen by isCensored (note the space
before `You are`); it is a pure function of the four persona fields,
and toggling isCensored changes only the trailing clause. -/
theorem system_message_characterization (cb cb' : Chatbot)
    (hn : cb'.name = cb.name) (hd : cb'.description = cb.description)
    (hi : cb'.introduction = cb.introduction)
    (hc : cb'.is_censored = cb.is_censored) :
    system_message cb =
      cb.introduction ++ " You are " ++ cb.name ++ ". " ++ cb.description ++
        (if cb.is_censored then
          " Keep your responses appropriate and family-friendly."
        else
          " You can engage in roleplay and adult content as requested.") ∧
    system_message cb' = system_message cb ∧
    system_message { cb with is_censored := true } =
      (cb.introduction ++ " You are " ++ cb.name ++ ". " ++ cb.description) ++
        " Keep your responses appropriate and family-friendly." ∧
    system_message { cb with is_censored := false } =
      (cb.introduction ++ " You are " ++ cb.name ++ ". " ++ cb.description) ++
        " You can engage in roleplay and adult content as requested." := by
  refine ⟨?_, ?_, rfl, rfl⟩
  · cases h : cb.is_censored <;> simp [system_message, h]
  · simp [system_message, hn, hd, hi, hc]

/-- Witness for the amended C6 at a concrete persona. -/
theorem system_message_characterization_witness :
    system_message ⟨"cb", "u", "B", "C", "A", true⟩ =
      "A" ++ " You are " ++ "B" ++ ". " ++ "C" ++
        (if true then
          " Keep your responses appropriate and family-friendly."
        else
          " You can engage in roleplay and adult content as requested.") ∧
    system_message ⟨"cb", "u", "B", "C", "A", true⟩ =
      system_message ⟨"cb", "u", "B", "C", "A", true⟩ ∧
    system_message ⟨"cb", "u", "B", "C", "A", true⟩ =
      ("A" ++ " You are " ++ "B" ++ ". " ++ "C") ++
        " Keep your responses appropriate and family-friendly." ∧
    system_message ⟨"cb", "u", "B", "C", "A", false⟩ =
      ("A" ++ " You are " ++ "B" ++ ". " ++ "C") ++
        " You can engage in roleplay and adult content as requested." :=
  system_message_characterization ⟨"cb", "u", "B", "C", "A", true⟩
    ⟨"cb", "u", "B", "C", "A", true⟩ rfl rfl rfl rfl

/-! ### Sender-type invariant (C8) -/

/-- Any state reached by the `except` handler only ever adds the
fallback bot message to the log, and a success result carries the
given user message and a bot-typed fallback message. -/
theorem fallback_turn_senders (um : Message) (cid e : String) (s : St) :
    (∀ m ∈ (fallback_turn um cid e s).2.messages,
        m ∈ s.messages ∨ m.sender_type = "user" ∨ m.sender_type = "chatbot") ∧
    (∀ r, (fallback_turn um cid e s).1 = .ok r →
        r.user_message = um ∧ r.bot_response.sender_type = "chatbot") := by
  obtain ⟨cbs, convs, msgs, now, nid, faults⟩ := s
  rcases faults with - | ⟨(- | f), rest⟩
  · constructor
    · intro m hm
      simp [fallback_turn, uuid4, utcnow, insert_one] at hm
      rcases hm with hm | hm
      · exact .inl hm
      · subst hm
        exact .inr (.inr rfl)
    · intro r hr
      simp [fallback_turn, uuid4, utcnow, insert_one] at hr
      subst hr
      exact ⟨rfl, rfl⟩
  · constructor
    · intro m hm
      simp [fallback_turn, uuid4, utcnow, insert_one] at hm
      rcases hm with hm | hm
      · exact .inl hm
      · subst hm
        exact .inr (.inr rfl)
    · intro r hr
      simp [fallback_turn, uuid4, utcnow, insert_one] at hr
      subst hr
      exact ⟨rfl, rfl⟩
  · constructor
    · intro m hm
      simp [fallback_turn, uuid4, utcnow, insert_one] at hm
      exact .inl hm
    · intro r hr
      simp [fallback_turn, uuid4, utcnow, insert_one] at hr

/-- Every message `send_message` adds to the log has sender type
`"user"` or `"chatbot"`, and a success result pairs a `"user"`-typed
message with a `"chatbot"`-typed one — over every path (errors,
generation success, generation failure, storage faults). -/
theorem send_message_senders (gw : Gateway) (cid msg uid : String) (s : St) :
    (∀ m ∈ (send_message gw cid msg uid s).2.messages,
        m ∈ s.messages ∨ m.sender_type = "user" ∨ m.sender_type = "chatbot") ∧
    (∀ r, (send_message gw cid msg uid s).1 = .ok r →
        r.user_message.sender_type = "user" ∧
        r.bot_response.sender_type = "chatbot") := by
  obtain ⟨cbs, convs, msgs, now, nid, faults⟩ := s
  cases hconv : convs.find? (fun c => c.id == cid) with
  | none =>
      constructor
      · intro m hm
        simp [send_message, hconv] at hm
        exact .inl hm
      · intro r hr
        simp [send_message, hconv] at hr
  | some c =>
      by_cases hu : c.user_id = uid
      case neg =>
        constructor
        · intro m hm
          simp [send_message, hconv, hu] at hm
          exact .inl hm
        · intro r hr
          simp [send_message, hconv, hu] at hr
      case pos =>
      cases hcb : cbs.find? (fun b => b.id == c.chatbot_id) with
      | none =>
          constructor
          · intro m hm
            simp [send_message, hconv, hu, hcb] at hm
            exact .inl hm
          · intro r hr
            simp [send_message, hconv, hu, hcb] at hr
      | some cb =>
          rcases faults with - | ⟨(- | f), rest⟩
          · cases hgw : gw (system_message cb) msg cid with
            | ok resp =>
                constructor
                · intro m hm
                  simp [send_message, uuid4, utcnow, insert_one, hconv, hu,
                    hcb, hgw] at hm
                  rcases hm with hm | rfl | rfl
                  · exact .inl hm
                  · exact .inr (.inl rfl)
                  · exact .inr (.inr rfl)
                · intro r hr
                  simp [send_message, uuid4, utcnow, insert_one, hconv, hu,
                    hcb, hgw] at hr
                  subst hr
                  exact ⟨rfl, rfl⟩
            | error e =>
                constructor
                · intro m hm
                  simp [send_message, fallback_turn, uuid4, utcnow, insert_one,
                    hconv, hu, hcb, hgw] at hm
                  rcases hm with hm | rfl | rfl
                  · exact .inl hm
                  · exact .inr (.inl rfl)
                  · exact .inr (.inr rfl)
                · intro r hr
                  simp [send_message, fallback_turn, uuid4, utcnow, insert_one,
                    hconv, hu, hcb, hgw] at hr
                  subst hr
                  exact ⟨rfl, rfl⟩
          · cases hgw : gw (system_message cb) msg cid with
            | ok resp =>
                rcases rest with - | ⟨(- | f2), rest2⟩
                · constructor
                  · intro m hm
                    simp [send_message, uuid4, utcnow, insert_one, hconv, hu,
                      hcb, hgw] at hm
                    rcases hm with hm | rfl | rfl
                    · exact .inl hm
                    · exact .inr (.inl rfl)
                    · exact .inr (.inr rfl)
                  · intro r hr
                    simp [send_message, uuid4, utcnow, insert_one, hconv, hu,
                      hcb, hgw] at hr
                    subst hr
                    exact ⟨rfl, rfl⟩
                · constructor
                  · intro m hm
                    simp [send_message, uuid4, utcnow, insert_one, hconv, hu,
                      hcb, hgw] at hm
                    rcases hm with hm | rfl | rfl
                    · exact .inl hm
                    · exact .inr (.inl rfl)
                    · exact .inr (.inr rfl)
                  · intro r hr
                    simp [send_message, uuid4, utcnow, insert_one, hconv, hu,
                      hcb, hgw] at hr
                    subst hr
                    exact ⟨rfl, rfl⟩
                · have hfb := fallback_turn_senders
                    ⟨toString nid, cid, "user", msg, now⟩ cid f2
                    ⟨cbs, convs,
                      msgs ++ [⟨toString nid, cid, "user", msg, now⟩],
                      now + 2, nid + 2, rest2⟩
                  constructor
                  · intro m hm
                    simp only [send_message, uuid4, utcnow, insert_one, hconv,
                      hu, hcb, hgw] at hm
                    simp only [bne_iff_ne, ne_eq, not_true_eq_false,
                      if_false] at hm
                    rcases hfb.1 m (by exact hm) with h1 | h1
                    · simp at h1
                      rcases h1 with h1 | rfl
                      · exact .inl h1
                      · exact .inr (.inl rfl)
                    · exact .inr h1
                  · intro r hr
                    simp only [send_message, uuid4, utcnow, insert_one, hconv,
                      hu, hcb, hgw] at hr
                    simp only [bne_iff_ne, ne_eq, not_true_eq_false,
                      if_false] at hr
                    obtain ⟨h1, h2⟩ := hfb.2 r (by exact hr)
                    rw [h1]
                    exact ⟨rfl, h2⟩
            | error e =>
                have hfb := fallback_turn_senders
                  ⟨toString nid, cid, "user", msg, now⟩ cid e
                  ⟨cbs, convs,
                    msgs ++ [⟨toString nid, cid, "user", msg, now⟩],
                    now + 1, nid + 1, rest⟩
                constructor
                · intro m hm
                  simp only [send_message, uuid4, utcnow, insert_one, hconv,
                    hu, hcb, hgw] at hm
                  simp only [bne_iff_ne, ne_eq, not_true_eq_false,
                    if_false] at hm
                  rcases hfb.1 m (by exact hm) with h1 | h1
                  · simp at h1
                    rcases h1 with h1 | rfl
                    · exact .inl h1
                    · exact .inr (.inl rfl)
                  · exact .inr h1
                · intro r hr
                  simp only [send_message, uuid4, utcnow, insert_one, hconv,
                    hu, hcb, hgw] at hr
                  simp only [bne_iff_ne, ne_eq, not_true_eq_false,
                    if_false] at hr
                  obtain ⟨h1, h2⟩ := hfb.2 r (by exact hr)
                  rw [h1]
                  exact ⟨rfl, h2⟩
          · constructor
            · intro m hm
              simp [send_message, uuid4, utcnow, insert_one, hconv, hu,
                hcb] at hm
              exact .inl hm
            · intro r hr
              simp [send_message, uuid4, utcnow, insert_one, hconv, hu,
                hcb] at hr

/-- C8 counterexample: after a successful concrete turn the store
holds a bot-turn message whose sender_type is the literal `"chatbot"`
(server.py line 327), which is neither `"user"` nor `"bot"` — the
claimed value `"bot"` is not what the code writes. -/
theorem bot_sender_literal_counterexample :
    (send_message gwOk "c1" "hello" "u1" stReady).2.messages.map
        Message.sender_type = ["user", "chatbot"] ∧
    ("chatbot" : String) ≠ "user" ∧ ("chatbot" : String) ≠ "bot" :=
  ⟨rfl, by decide, by decide⟩

/-- C8 (amended): every message `send_message` writes to the
transcript store has sender_type `"user"` or `"chatbot"` (the code's
literal for the bot sender kind): if the invariant holds of the store,
it holds after any turn, whatever the Gateway and fault schedule do;
and every returned pair is a `"user"`-typed message followed by a
`"chatbot"`-typed one, on the success path and the fallback path
alike. -/
theorem message_sender_invariant (gw : Gateway) (cid msg uid : String)
    (s : St)
    (h : ∀ m ∈ s.messages,
      m.sender_type = "user" ∨ m.sender_type = "chatbot") :
    (∀ m ∈ (send_message gw cid msg uid s).2.messages,
        m.sender_type = "user" ∨ m.sender_type = "chatbot") ∧
    (∀ r, (send_message gw cid msg uid s).1 = .ok r →
        r.user_message.sender_type = "user" ∧
        r.bot_response.sender_type = "chatbot") := by
  obtain ⟨h1, h2⟩ := send_message_senders gw cid msg uid s
  refine ⟨fun m hm => ?_, h2⟩
  rcases h1 m hm with hold | hnew
  · exact h m hold
  · exact hnew

/-- Witness for the amended C8: concrete membership and result facts
extracted from a concrete turn. -/
theorem message_sender_invariant_witness :
    ((⟨"1", "c1", "chatbot", "hi there", 1⟩ : Message).sender_type = "user" ∨
      (⟨"1", "c1", "chatbot", "hi there", 1⟩ : Message).sender_type =
        "chatbot") ∧
    ((⟨⟨"0", "c1", "user", "hello", 0⟩,
        ⟨"1", "c1", "chatbot", "hi there", 1⟩⟩ :
          TurnResult).user_message.sender_type = "user" ∧
      (⟨⟨"0", "c1", "user", "hello", 0⟩,
        ⟨"1", "c1", "chatbot", "hi there", 1⟩⟩ :
          TurnResult).bot_response.sender_type = "chatbot") :=
  ⟨(message_sender_invariant gwOk "c1" "hello" "u1" stReady
      (by simp [stReady])).1
      ⟨"1", "c1", "chatbot", "hi there", 1⟩ (by decide),
    (message_sender_invariant gwOk "c1" "hello" "u1" stReady
      (by simp [stReady])).2
      ⟨⟨"0", "c1", "user", "hello", 0⟩,
        ⟨"1", "c1", "chatbot", "hi there", 1⟩⟩ (by rfl)⟩

/-- C9: the cascade in `delete_chatbot` deletes the persona and its
conversations but its message cleanup filters on the empty id set
(`{"$in": []}`, server.py line 258), so the deleted conversation's
message survives: after deleting `cb1`, conversation `c1` is gone
while its message `m1` is still in the store. -/
theorem delete_chatbot_leaves_messages :
    (delete_chatbot "cb1" "u1"
        { stReady with messages := [⟨"m1", "c1", "user", "hi", 0⟩] }).1 =
      .ok () ∧
    (delete_chatbot "cb1" "u1"
        { stReady with messages := [⟨"m1", "c1", "user", "hi", 0⟩] }).2.conversations =
      [] ∧
    (delete_chatbot "cb1" "u1"
        { stReady with messages := [⟨"m1", "c1", "user", "hi", 0⟩] }).2.messages =
      [⟨"m1", "c1", "user", "hi", 0⟩] :=
  ⟨rfl, rfl, rfl⟩

/-! ### Transcript shape after sequential turns (C7) -/

/-- A timestamp-sorted list is left unchanged by the stable sort. -/
theorem sortByTs_eq_self : ∀ l : List Message, sortedByTs l = true →
    sortByTs l = l
  | [], _ => rfl
  | [_], _ => rfl
  | a :: b :: rest, h => by
      simp only [sortedByTs, Bool.and_eq_true, decide_eq_true_eq] at h
      have ih := sortByTs_eq_self (b :: rest) h.2
      show insertByTs a (sortByTs (b :: rest)) = a :: b :: rest
      rw [ih]
      simp [insertByTs, h.1]

/-- Appending a user/bot pair keeps a transcript alternating. -/
theorem alternating_append_pair : ∀ (l : List Message) (u b : Message),
    alternating l = true → u.sender_type = "user" →
    b.sender_type = "chatbot" → alternating (l ++ [u, b]) = true
  | [], u, b, _, hu, hb => by simp [alternating, hu, hb]
  | [_], _, _, h, _, _ => by simp [alternating] at h
  | x :: y :: rest, u, b, h, hu, hb => by
      simp only [alternating, Bool.and_eq_true, beq_iff_eq] at h
      have ih := alternating_append_pair rest u b h.2 hu hb
      simp only [List.cons_append, alternating, Bool.and_eq_true, beq_iff_eq]
      exact ⟨h.1, ih⟩

/-- Appending an ordered pair of late messages keeps the transcript
timestamp-sorted. -/
theorem sortedByTs_append_pair : ∀ (l : List Message) (u b : Message),
    sortedByTs l = true → (∀ m ∈ l, m.timestamp ≤ u.timestamp) →
    u.timestamp ≤ b.timestamp → sortedByTs (l ++ [u, b]) = true
  | [], u, b, _, _, hub => by simp [sortedByTs, hub]
  | [x], u, b, _, hle, hub => by
      simp [sortedByTs, hub, hle x (by simp)]
  | x :: y :: rest, u, b, h, hle, hub => by
      simp only [sortedByTs, Bool.and_eq_true, decide_eq_true_eq] at h
      have ih := sortedByTs_append_pair (y :: rest) u b h.2
        (fun m hm => hle m (by simp [List.mem_cons] at hm ⊢; tauto)) hub
      simp only [List.cons_append] at ih ⊢
      simp only [sortedByTs, Bool.and_eq_true, decide_eq_true_eq]
      exact ⟨h.1, ih⟩

/-- The conversation is resolvable, owned by the caller, its persona
exists, and storage is fault-free. -/
def TurnReady (cid uid : String) (s : St) : Prop :=
  (∃ c, s.conversations.find? (fun x => x.id == cid) = some c ∧
    c.user_id = uid ∧
    ∃ cb, s.chatbots.find? (fun b => b.id == c.chatbot_id) = some cb) ∧
  s.storageFaults = []

/-- The conversation's transcript holds `2 * n` messages, alternating
user/bot, sorted by timestamp, all in the clock's past. -/
def TranscriptInv (cid : String) (n : Nat) (s : St) : Prop :=
  (s.messages.filter (fun m => m.conversation_id == cid)).length = 2 * n ∧
  alternating (s.messages.filter (fun m => m.conversation_id == cid)) = true ∧
  sortedByTs (s.messages.filter (fun m => m.conversation_id == cid)) = true ∧
  ∀ m ∈ s.messages.filter (fun m => m.conversation_id == cid),
    m.timestamp < s.now

/-- One turn on a ready conversation preserves readiness and extends
the transcript by one user/bot pair. -/
theorem send_message_step (gw : Gateway) (cid uid t : String) (s : St)
    (n : Nat) (hr : TurnReady cid uid s) (hi : TranscriptInv cid n s) :
    TurnReady cid uid (send_message gw cid t uid s).2 ∧
    TranscriptInv cid (n + 1) (send_message gw cid t uid s).2 := by
  obtain ⟨⟨c, hconv, hu, cb, hcb⟩, hf⟩ := hr
  obtain ⟨bc, heq⟩ := send_message_pair gw cid t uid s c cb hconv hu hcb hf
  rw [heq]
  obtain ⟨hlen, halt, hsort, hts⟩ := hi
  have hfil :
      (({ s with
          messages := s.messages ++
            [⟨toString s.nextId, cid, "user", t, s.now⟩,
             ⟨toString (s.nextId + 1), cid, "chatbot", bc, s.now + 1⟩],
          now := s.now + 2, nextId := s.nextId + 2 } : St).messages.filter
        (fun m => m.conversation_id == cid)) =
      s.messages.filter (fun m => m.conversation_id == cid) ++
        [⟨toString s.nextId, cid, "user", t, s.now⟩,
         ⟨toString (s.nextId + 1), cid, "chatbot", bc, s.now + 1⟩] := by
    simp [List.filter_append]
  constructor
  · exact ⟨⟨c, hconv, hu, cb, hcb⟩, hf⟩
  · refine ⟨?_, ?_, ?_, ?_⟩
    · rw [hfil, List.length_append, hlen]
      simp [Nat.mul_succ]
    · rw [hfil]
      exact alternating_append_pair _ _ _ halt rfl rfl
    · rw [hfil]
      exact sortedByTs_append_pair _ _ _ hsort
        (fun m hm => Nat.le_of_lt (hts m hm)) (Nat.le_succ _)
    · rw [hfil]
      intro m hm
      show m.timestamp < s.now + 2
      rcases List.mem_append.1 hm with h | h
      · exact Nat.lt_trans (hts m h) (by omega)
      · simp only [List.mem_cons, List.mem_singleton] at h
        rcases h with rfl | rfl | h
        · show s.now < s.now + 2
          omega
        · show s.now + 1 < s.now + 2
          omega
        · exact absurd h (List.not_mem_nil m)

/-- Sequential turns preserve readiness and grow the transcript by one
pair per turn. -/
theorem runTurns_inv (gw : Gateway) (cid uid : String) :
    ∀ (ts : List String) (s : St) (n : Nat), TurnReady cid uid s →
      TranscriptInv cid n s →
      TurnReady cid uid (runTurns gw cid uid ts s) ∧
      TranscriptInv cid (n + ts.length) (runTurns gw cid uid ts s)
  | [], s, n, hr, hi => by
      simpa [runTurns] using And.intro hr hi
  | t :: ts, s, n, hr, hi => by
      obtain ⟨hr1, hi1⟩ := send_message_step gw cid uid t s n hr hi
      have hrec := runTurns_inv gw cid uid ts (send_message gw cid t uid s).2
        (n + 1) hr1 hi1
      have hn : n + (t :: ts).length = n + 1 + ts.length := by
        simp [List.length_cons]
        omega
      rw [runTurns, hn]
      exact hrec

/-- C7: after `N` sequential turns on a ready conversation with an
initially empty transcript, `get_conversation_messages` returns
exactly `2 * N` messages, sorted by timestamp ascending and
alternating one user message then one bot message per turn. -/
theorem transcript_after_turns (gw : Gateway) (cid uid : String)
    (ts : List String) (s : St) (c : Conversation) (cb : Chatbot)
    (hconv : s.conversations.find? (fun x => x.id == cid) = some c)
    (hu : c.user_id = uid)
    (hcb : s.chatbots.find? (fun b => b.id == c.chatbot_id) = some cb)
    (hf : s.storageFaults = [])
    (hempty : s.messages.filter (fun m => m.conversation_id == cid) = []) :
    ∃ l, get_conversation_messages cid uid (runTurns gw cid uid ts s) =
        .ok l ∧
      l.length = 2 * ts.length ∧ alternating l = true ∧
      sortedByTs l = true := by
  have h0 : TranscriptInv cid 0 s := by
    refine ⟨?_, ?_, ?_, ?_⟩ <;> rw [hempty] <;> simp [alternating, sortedByTs]
  obtain ⟨⟨⟨c2, hconv2, hu2, cb2, hcb2⟩, hf2⟩, hinv⟩ :=
    runTurns_inv gw cid uid ts s 0 ⟨⟨c, hconv, hu, cb, hcb⟩, hf⟩ h0
  obtain ⟨hlen, halt, hsort, hts⟩ := hinv
  refine ⟨(runTurns gw cid uid ts s).messages.filter
    (fun m => m.conversation_id == cid), ?_, ?_, halt, hsort⟩
  · simp [get_conversation_messages, hconv2, hu2,
      sortByTs_eq_self _ hsort]
  · simpa using hlen

/-- Witness for C7: two turns on a fresh conversation yield the
four-message, alternating, sorted transcript. -/
theorem transcript_after_turns_witness :
    get_conversation_messages "c1" "u1"
        (runTurns gwOk "c1" "u1" ["a", "b"] stReady) =
      .ok [⟨"0", "c1", "user", "a", 0⟩, ⟨"1", "c1", "chatbot", "hi there", 1⟩,
        ⟨"2", "c1", "user", "b", 2⟩, ⟨"3", "c1", "chatbot", "hi there", 3⟩] ∧
    alternating [⟨"0", "c1", "user", "a", 0⟩,
      ⟨"1", "c1", "chatbot", "hi there", 1⟩,
      ⟨"2", "c1", "user", "b", 2⟩,
      ⟨"3", "c1", "chatbot", "hi there", 3⟩] = true ∧
    sortedByTs [⟨"0", "c1", "user", "a", 0⟩,
      ⟨"1", "c1", "chatbot", "hi there", 1⟩,
      ⟨"2", "c1", "user", "b", 2⟩,
      ⟨"3", "c1", "chatbot", "hi there", 3⟩] = true := by
  obtain ⟨l, h1, h2, h3, h4⟩ := transcript_after_turns gwOk "c1" "u1"
    ["a", "b"] stReady ⟨"c1", "u1", "cb1"⟩
    ⟨"cb1", "u1", "Nova", "a helpful guide", "Hi, I am Nova.", true⟩
    (by rfl) rfl (by rfl) rfl (by rfl)
  have h0 : get_conversation_messages "c1" "u1"
      (runTurns gwOk "c1" "u1" ["a", "b"] stReady) =
    .ok [⟨"0", "c1", "user", "a", 0⟩, ⟨"1", "c1", "chatbot", "hi there", 1⟩,
      ⟨"2", "c1", "user", "b", 2⟩,
      ⟨"3", "c1", "chatbot", "hi there", 3⟩] := by rfl
  have hl : l = [⟨"0", "c1", "user", "a", 0⟩,
      ⟨"1", "c1", "chatbot", "hi there", 1⟩,
      ⟨"2", "c1", "user", "b", 2⟩,
      ⟨"3", "c1", "chatbot", "hi there", 3⟩] :=
    (Except.ok.inj ((h0.symm).trans h1)).symm
  exact ⟨h0, hl ▸ h3, hl ▸ h4⟩

end ChatApp
